import Mathlib

/-!
Verification of the AI-Menu-Widget backend (`python-backend/main.py`).

Python strings are modelled as `List Char` (`Str`); each definition below
embeds the correspondingly named Python function.  ASCII scope: `str.strip`,
`str.lower` and the regex character classes are modelled on their ASCII
behaviour, which covers every string the program manipulates.
-/

abbrev Str := List Char

/-- The apostrophe character (code 39). -/
def squote : Char := Char.ofNat 39

/-- Left brace character (code 123). -/
def lbrace : Char := Char.ofNat 123

/-- Right brace character (code 125). -/
def rbrace : Char := Char.ofNat 125

/-- Whitespace set of Python `str.strip` (ASCII scope). -/
def pyIsSpace (c : Char) : Bool :=
  c = ' ' || c = '\t' || c = '\n' || c = '\r' || c = '\x0b' || c = '\x0c'

/-- Python `str.strip()`. -/
def pyStrip (s : Str) : Str :=
  ((s.dropWhile pyIsSpace).reverse.dropWhile pyIsSpace).reverse

/-- Python `str.lower()` (ASCII scope). -/
def pyLower (s : Str) : Str := s.map Char.toLower

/-- Substring test (Python `pat in s`): does `pat` occur as a prefix of
some suffix of `s`? -/
def infixOf (pat : Str) : Str → Bool
  | [] => pat.isEmpty
  | c :: rest => pat.isPrefixOf (c :: rest) || infixOf pat rest

/-! ## Sanitizer / Validator (`MenuItemRequest.validate_item_name`) -/

/-- Characters removed by `re.sub(r'[<>"\']', '', ...)`. -/
def forbiddenChar (c : Char) : Bool :=
  c = '<' || c = '>' || c = '"' || c = squote

/-- The cleaning step: trim, then strip forbidden characters. -/
def sanitize (v : Str) : Str :=
  (pyStrip v).filter (fun c => !forbiddenChar c)

/-- Matcher for `re.search(r'<.*>', s)`: a `<` later followed by a `>`
with no newline in between (`.` does not match a newline). -/
def tagShape : Str → Bool
  | [] => false
  | c :: rest =>
    (c = '<' && (rest.takeWhile (fun d => d ≠ '\n')).contains '>') || tagShape rest

/-- Matcher for `import\s+os` anchored at the start of the string:
the literal `import`, one or more whitespace characters, then `os`. -/
def importOsAt (s : Str) : Bool :=
  "import".toList.isPrefixOf s &&
    (let rest := s.drop 6
     let ws := rest.takeWhile pyIsSpace
     !ws.isEmpty && "os".toList.isPrefixOf (rest.drop ws.length))

/-- Matcher for `re.search(r'import\s+os', s)`: the anchored matcher
tried at every suffix. -/
def importOsSearch : Str → Bool
  | [] => importOsAt []
  | c :: rest => importOsAt (c :: rest) || importOsSearch rest

/-- The suspicious-pattern test of `validate_item_name`, in source order.
`re.IGNORECASE` is modelled by lowering the string for the letter-only
patterns; it is a no-op for `<.*>`. -/
def suspicious (s : Str) : Bool :=
  let low := pyLower s
  infixOf "script".toList low ||
  infixOf "javascript".toList low ||
  tagShape s ||
  infixOf "http://".toList low ||
  infixOf "https://".toList low ||
  infixOf "exec(".toList low ||
  infixOf "eval(".toList low ||
  infixOf "system(".toList low ||
  importOsSearch low

inductive ValidationError where
  | emptyName
  | tooLong
  | suspiciousName
  deriving DecidableEq

/-- Embeds `MenuItemRequest.validate_item_name`. -/
def validate_item_name (v : Str) : Except ValidationError Str :=
  if pyStrip v = [] then .error .emptyName
  else
    let sanitized := sanitize v
    if 100 < sanitized.length then .error .tooLong
    else if suspicious sanitized then .error .suspiciousName
    else .ok sanitized

/-! ## Model-id validation (`MenuItemRequest.validate_gpt_model`) -/

def allowed_models : List Str :=
  ["gpt-3.5-turbo".toList, "gpt-4".toList, "gpt-4-turbo".toList]

/-- Embeds `MenuItemRequest.validate_gpt_model`. -/
def validate_gpt_model (v : Str) : Str :=
  if v ∈ allowed_models then v else "gpt-3.5-turbo".toList

/-! ## Rate limiter (`check_rate_limit`) -/

/-- Embeds `check_rate_limit`: prune entries older than `window`,
reject without recording when `limit` is reached, otherwise append the
current time.  Time is modelled by `ℚ`. -/
def check_rate_limit (now : ℚ) (limit : Nat) (window : ℚ) (store : List ℚ) :
    Bool × List ℚ :=
  let recent := store.filter (fun t => now - t < window)
  if limit ≤ recent.length then (false, recent)
  else (true, recent ++ [now])

/-! ## Heuristic classifier (`get_simulate_response`) -/

/-- Embeds `get_simulate_response`: keyword matching on the lower-cased
item name, first branch wins, the original name interpolated verbatim. -/
def get_simulate_response (item_name : Str) : Str × Str :=
  let item := pyLower item_name
  if ["pizza".toList, "pasta".toList].any (fun w => infixOf w item) then
    (item_name ++ " — freshly baked with premium ingredients, aromatic herbs, and authentic Italian flavors.".toList,
     "Pair it with a refreshing Italian Soda!".toList)
  else if ["burger".toList, "sandwich".toList].any (fun w => infixOf w item) then
    (item_name ++ " — juicy, perfectly grilled with fresh vegetables and special sauce.".toList,
     "Add crispy French Fries and a cold drink!".toList)
  else if ["curry".toList, "biryani".toList, "tikka".toList].any (fun w => infixOf w item) then
    (item_name ++ " — rich, aromatic spices with tender meat and authentic Indian flavors.".toList,
     "Pair it with fluffy Naan bread and Mango Lassi!".toList)
  else if ["sushi".toList, "roll".toList].any (fun w => infixOf w item) then
    (item_name ++ " — fresh, premium fish with perfectly seasoned rice and crisp vegetables.".toList,
     "Add miso soup and green tea!".toList)
  else if ["salad".toList, "bowl".toList].any (fun w => infixOf w item) then
    (item_name ++ " — fresh, crisp vegetables with healthy grains and light dressing.".toList,
     "Add a protein boost with grilled chicken!".toList)
  else if ["dessert".toList, "cake".toList, "ice cream".toList].any (fun w => infixOf w item) then
    (item_name ++ " — sweet, indulgent treat made with premium ingredients.".toList,
     "Pair it with hot coffee or tea!".toList)
  else if ["drink".toList, "juice".toList, "smoothie".toList].any (fun w => infixOf w item) then
    (item_name ++ " — refreshing, natural flavors with no artificial additives.".toList,
     "Add a light snack or dessert!".toList)
  else
    (item_name ++ " — delicious, freshly prepared with quality ingredients and authentic flavors.".toList,
     "Pair it with your favorite beverage!".toList)

/-! ## JSON values and `json.loads`

A model of the Python `json` module as far as the repairer exercises it:
values, strictness of the grammar, truthiness, and dict access.  Numbers
are kept only up to the zero test that Python truthiness needs (float
underflow and overflow are not modelled). -/

inductive JValue where
  | null
  | bool (b : Bool)
  | num (isZero : Bool)
  | str (s : Str)
  | arr (elems : List JValue)
  | obj (fields : List (Str × JValue))

/-- JSON inter-token whitespace (`json.decoder` skips exactly these). -/
def skipWs (s : Str) : Str :=
  s.dropWhile (fun c => c = ' ' || c = '\t' || c = '\n' || c = '\r')

/-- Value of one hexadecimal digit. -/
def hexVal (c : Char) : Option Nat :=
  if c.isDigit then some (c.toNat - 48)
  else if 'a' ≤ c && c ≤ 'f' then some (c.toNat - 87)
  else if 'A' ≤ c && c ≤ 'F' then some (c.toNat - 55)
  else none

/-- Value of a four-digit hexadecimal escape. -/
def hexQuad (h1 h2 h3 h4 : Char) : Option Nat :=
  match hexVal h1, hexVal h2, hexVal h3, hexVal h4 with
  | some a, some b, some c, some d => some (a * 4096 + b * 256 + c * 16 + d)
  | _, _, _, _ => none

/-- Body of a JSON string after the opening quote: escape handling,
rejection of raw control characters, surrogate-pair combination for
`\uXXXX` (a lone surrogate, unrepresentable in `Char`, becomes U+FFFD).
The fuel argument is called with `length + 1`, which is always enough
since every step consumes at least one character. -/
def parseStringBody : Nat → Str → Str → Option (Str × Str)
  | 0, _, _ => none
  | _ + 1, [], _ => none
  | _ + 1, '"' :: rest, acc => some (acc.reverse, rest)
  | fuel + 1, '\\' :: rest, acc =>
    match rest with
    | '"' :: r => parseStringBody fuel r ('"' :: acc)
    | '\\' :: r => parseStringBody fuel r ('\\' :: acc)
    | '/' :: r => parseStringBody fuel r ('/' :: acc)
    | 'b' :: r => parseStringBody fuel r ('\x08' :: acc)
    | 'f' :: r => parseStringBody fuel r ('\x0c' :: acc)
    | 'n' :: r => parseStringBody fuel r ('\n' :: acc)
    | 'r' :: r => parseStringBody fuel r ('\r' :: acc)
    | 't' :: r => parseStringBody fuel r ('\t' :: acc)
    | 'u' :: h1 :: h2 :: h3 :: h4 :: r =>
      match hexQuad h1 h2 h3 h4 with
      | none => none
      | some n =>
        if 0xD800 ≤ n && n ≤ 0xDBFF then
          match r with
          | '\\' :: 'u' :: g1 :: g2 :: g3 :: g4 :: r2 =>
            match hexQuad g1 g2 g3 g4 with
            | some m =>
              if 0xDC00 ≤ m && m ≤ 0xDFFF then
                parseStringBody fuel r2
                  (Char.ofNat (0x10000 + (n - 0xD800) * 0x400 + (m - 0xDC00)) :: acc)
              else parseStringBody fuel r ('\uFFFD' :: acc)
            | none => parseStringBody fuel r ('\uFFFD' :: acc)
          | _ => parseStringBody fuel r ('\uFFFD' :: acc)
        else if 0xDC00 ≤ n && n ≤ 0xDFFF then
          parseStringBody fuel r ('\uFFFD' :: acc)
        else parseStringBody fuel r (Char.ofNat n :: acc)
    | _ => none
  | fuel + 1, c :: rest, acc =>
    if c.toNat < 32 then none else parseStringBody fuel rest (c :: acc)

/-- Fraction and exponent suffix of a JSON number, plus the zero test:
a number is zero exactly when every integer- and fraction-part digit
is `0` (the exponent cannot change that). -/
def numFracExp (intDigits : Str) (r : Str) : JValue × Str :=
  let fracStep : Str × Str :=
    match r with
    | '.' :: r2 =>
      let ds := r2.takeWhile Char.isDigit
      if ds.isEmpty then ([], r) else (ds, r2.drop ds.length)
    | _ => ([], r)
  let fracDigits := fracStep.1
  let r1 := fracStep.2
  let r2 : Str :=
    match r1 with
    | 'e' :: rest =>
      let rest2 := match rest with
        | '+' :: t => t
        | '-' :: t => t
        | _ => rest
      let ds := rest2.takeWhile Char.isDigit
      if ds.isEmpty then r1 else rest2.drop ds.length
    | 'E' :: rest =>
      let rest2 := match rest with
        | '+' :: t => t
        | '-' :: t => t
        | _ => rest
      let ds := rest2.takeWhile Char.isDigit
      if ds.isEmpty then r1 else rest2.drop ds.length
    | _ => r1
  (JValue.num ((intDigits ++ fracDigits).all (fun d => d = '0')), r2)

/-- A JSON number token (maximal munch, as the `json` scanner regex):
optional minus, `0` or a nonzero-led digit run, optional fraction and
exponent.  Anything left over is handed back to the caller. -/
def parseNumber (s : Str) : Option (JValue × Str) :=
  let s1 : Str := match s with
    | '-' :: r => r
    | _ => s
  match s1 with
  | '0' :: r => some (numFracExp ['0'] r)
  | c :: _ =>
    if c.isDigit then
      let ds := s1.takeWhile Char.isDigit
      some (numFracExp ds (s1.drop ds.length))
    else none
  | [] => none

mutual

/-- A JSON value at the head of `s` (whitespace already skipped).
The fuel argument bounds the recursion; `jsonLoads` supplies
`2 * length + 8`, enough for every input the scanner can accept. -/
def parseValue : Nat → Str → Option (JValue × Str)
  | 0, _ => none
  | fuel + 1, s =>
    match s with
    | [] => none
    | c :: r =>
      if c = lbrace then
        let s2 := skipWs r
        match s2 with
        | c2 :: r2 => if c2 = rbrace then some (.obj [], r2) else parseObjectFields fuel s2 []
        | [] => none
      else if c = '[' then
        let s2 := skipWs r
        match s2 with
        | ']' :: r2 => some (.arr [], r2)
        | _ => parseArrayElems fuel s2 []
      else if c = '"' then
        (parseStringBody (r.length + 1) r []).map (fun p => (JValue.str p.1, p.2))
      else if "true".toList.isPrefixOf s then some (.bool true, s.drop 4)
      else if "false".toList.isPrefixOf s then some (.bool false, s.drop 5)
      else if "null".toList.isPrefixOf s then some (.null, s.drop 4)
      else if "NaN".toList.isPrefixOf s then some (.num false, s.drop 3)
      else if "Infinity".toList.isPrefixOf s then some (.num false, s.drop 8)
      else if "-Infinity".toList.isPrefixOf s then some (.num false, s.drop 9)
      else if c = '-' || c.isDigit then parseNumber s
      else none

/-- Comma-separated array elements, expecting a value at the head. -/
def parseArrayElems : Nat → Str → List JValue → Option (JValue × Str)
  | 0, _, _ => none
  | fuel + 1, s, acc =>
    match parseValue fuel s with
    | none => none
    | some (v, r) =>
      match skipWs r with
      | ']' :: t => some (.arr (acc ++ [v]), t)
      | ',' :: t => parseArrayElems fuel (skipWs t) (acc ++ [v])
      | _ => none

/-- Comma-separated object members, expecting a `"key": value` pair at
the head.  Duplicate keys are kept in order; lookup takes the last. -/
def parseObjectFields : Nat → Str → List (Str × JValue) → Option (JValue × Str)
  | 0, _, _ => none
  | fuel + 1, s, acc =>
    match s with
    | '"' :: r =>
      match parseStringBody (r.length + 1) r [] with
      | none => none
      | some (key, r1) =>
        match skipWs r1 with
        | ':' :: r2 =>
          match parseValue fuel (skipWs r2) with
          | none => none
          | some (v, r3) =>
            match skipWs r3 with
            | ',' :: t => parseObjectFields fuel (skipWs t) (acc ++ [(key, v)])
            | c :: t => if c = rbrace then some (.obj (acc ++ [(key, v)]), t) else none
            | [] => none
        | _ => none
    | _ => none

end

/-- Embeds `json.loads`: parse one value, allow only trailing
whitespace after it. -/
def jsonLoads (s : Str) : Option JValue :=
  match parseValue (2 * s.length + 8) (skipWs s) with
  | some (v, rest) => if skipWs rest = [] then some v else none
  | none => none

/-! ## Response repairer (`PromptEngineer.validate_ai_response`) -/

/-- Python truthiness of a decoded JSON value. -/
def truthy : JValue → Bool
  | .null => false
  | .bool b => b
  | .num isZero => !isZero
  | .str s => !s.isEmpty
  | .arr l => !l.isEmpty
  | .obj l => !l.isEmpty

/-- Truthiness of a `dict.get` result (`None` when the key is absent). -/
def truthyOpt : Option JValue → Bool
  | none => false
  | some v => truthy v

/-- Python dict lookup over the member list: the last binding of a
duplicated key wins. -/
def dictGet (fields : List (Str × JValue)) (key : Str) : Option JValue :=
  (fields.reverse.find? (fun kv => kv.1 == key)).map Prod.snd

/-- The truncation pattern `s[:keep] + "..."` applied when `len(s) > cap`. -/
def trunc (cap keep : Nat) (s : Str) : Str :=
  if cap < s.length then s.take keep ++ "...".toList else s

/-- Exceptions the repairer can produce.  `JSONDecodeError` is a
`ValueError` subclass, so both land in `valueError`; `attributeError`
escapes the repairer's own handler. -/
inductive PyExc where
  | valueError
  | attributeError
  deriving DecidableEq

def descKey : Str := "description".toList

def upsKey : Str := "upsell_suggestion".toList

/-- The `try` block of `validate_ai_response` after `json.loads`
succeeded: field presence/truthiness check, then `.strip()` (an
`AttributeError` when a truthy field is not a string, or when the
decoded value is not a dict at all), then truncation. -/
def structured_clean (parsed : JValue) : Except PyExc (Str × Str) :=
  match parsed with
  | .obj fields =>
    if truthyOpt (dictGet fields descKey) && truthyOpt (dictGet fields upsKey) then
      match dictGet fields descKey with
      | some (.str d) =>
        let description := trunc 150 147 (pyStrip d)
        match dictGet fields upsKey with
        | some (.str u) => .ok (description, trunc 100 97 (pyStrip u))
        | _ => .error .attributeError
      | _ => .error .attributeError
    else .error .valueError
  | _ => .error .attributeError

/-- The whole `try` block: `json.loads` on the stripped text, then the
structured cleaning. -/
def try_body (response_text : Str) : Except PyExc (Str × Str) :=
  match jsonLoads (pyStrip response_text) with
  | none => .error .valueError
  | some parsed => structured_clean parsed

/-- Fuelled worker for `stripLabels`; every step consumes at least one
character, so fuel `length` is always enough. -/
def stripLabelsFuel : Nat → Str → Str
  | 0, s => s
  | _, [] => []
  | fuel + 1, c :: rest =>
    if "Combo:".toList.isPrefixOf (c :: rest) then stripLabelsFuel fuel ((c :: rest).drop 6)
    else if "combo:".toList.isPrefixOf (c :: rest) then stripLabelsFuel fuel ((c :: rest).drop 6)
    else if "suggestion:".toList.isPrefixOf (c :: rest) then stripLabelsFuel fuel ((c :: rest).drop 11)
    else if "suggest:".toList.isPrefixOf (c :: rest) then stripLabelsFuel fuel ((c :: rest).drop 8)
    else c :: stripLabelsFuel fuel rest

/-- `re.sub(r'(Combo:|combo:|suggestion:|suggest:)', '', s)`:
left-to-right removal of each label, alternatives tried in order. -/
def stripLabels (s : Str) : Str := stripLabelsFuel s.length s

def cue_words : List Str :=
  ["pair".toList, "add".toList, "combo".toList, "suggest".toList, "try".toList]

/-- The `except (json.JSONDecodeError, ValueError)` branch: split into
non-empty trimmed lines, first line (or a stock sentence) as the
description with the 150/147 truncation, a cue-word line (else the
second line, else a stock sentence) as the upsell with its labels
removed. -/
def fallback_parse (response_text : Str) : Str × Str :=
  let lines := ((response_text.splitOn '\n').map pyStrip).filter (fun l => !l.isEmpty)
  let description0 : Str :=
    match lines with
    | [] => "Delicious dish prepared with care.".toList
    | d :: _ => d
  let description := trunc 150 147 description0
  let upsell_line : Str :=
    match (lines.drop 1).find? (fun line => cue_words.any (fun w => infixOf w (pyLower line))) with
    | some l => l
    | none =>
      match lines with
      | _ :: second :: _ => second
      | _ => []
  let upsell0 := pyStrip (stripLabels upsell_line)
  let upsell := if upsell0.isEmpty then "Pair it with your favorite beverage!".toList else upsell0
  (description, upsell)

/-- Embeds `PromptEngineer.validate_ai_response`: the structured path,
with `JSONDecodeError`/`ValueError` repaired by the heuristic path and
`AttributeError` escaping. -/
def validate_ai_response (response_text : Str) : Except PyExc (Str × Str) :=
  match try_body response_text with
  | .ok pair => .ok pair
  | .error .valueError => .ok (fallback_parse response_text)
  | .error .attributeError => .error .attributeError

/-! ## Orchestrator (`generate_item_details`)

The HTTP shell, timestamps and the OpenAI client are external: the
model call is passed in as its outcome (`Except Unit Str`, `error` for
any timeout/transport failure), configuration as a `Bool`, and the
clock as `now`.  Pydantic runs the field validators before the endpoint
body, so a validation failure ends the request with the rate-limit
store untouched. -/

structure MenuItemResponse where
  description : Str
  upsell_suggestion : Str
  model_used : Str
  deriving DecidableEq

inductive ApiResult where
  | ok (resp : MenuItemResponse)
  | validationError (e : ValidationError)
  | rateLimited
  deriving DecidableEq

/-- Embeds the `/generate-item-details` request flow: validate,
rate-limit, then simulate / model call + repair / fallback.  The inner
`except Exception` also absorbs an `AttributeError` escaping the
repairer into the fallback branch. -/
def generate_item_details (item_name_raw : Str) (simulate : Bool) (gpt_model_raw : Str)
    (clientConfigured : Bool) (modelResult : Except Unit Str)
    (now : ℚ) (store : List ℚ) : ApiResult × List ℚ :=
  match validate_item_name item_name_raw with
  | .error e => (.validationError e, store)
  | .ok item_name =>
    let gpt_model := validate_gpt_model gpt_model_raw
    let rate := check_rate_limit now 10 60 store
    if !rate.1 then (.rateLimited, rate.2)
    else if simulate || !clientConfigured then
      let r := get_simulate_response item_name
      (.ok ⟨r.1, r.2, "simulate".toList⟩, rate.2)
    else
      match modelResult with
      | .error _ =>
        let r := get_simulate_response item_name
        (.ok ⟨r.1, r.2, "fallback".toList⟩, rate.2)
      | .ok raw =>
        let response_text := pyStrip raw
        match validate_ai_response response_text with
        | .ok pair => (.ok ⟨pair.1, pair.2, gpt_model⟩, rate.2)
        | .error _ =>
          let r := get_simulate_response item_name
          (.ok ⟨r.1, r.2, "fallback".toList⟩, rate.2)

/-! ## The validator without the tag-shape pattern (for the
redundancy/refinement comparison) -/

/-- The suspicious-pattern test with the `<.*>` pattern removed. -/
def suspicious_no_tag (s : Str) : Bool :=
  let low := pyLower s
  infixOf "script".toList low ||
  infixOf "javascript".toList low ||
  infixOf "http://".toList low ||
  infixOf "https://".toList low ||
  infixOf "exec(".toList low ||
  infixOf "eval(".toList low ||
  infixOf "system(".toList low ||
  importOsSearch low

/-- `validate_item_name` with the `<.*>` pattern removed from the
denylist. -/
def validate_item_name_no_tag (v : Str) : Except ValidationError Str :=
  if pyStrip v = [] then .error .emptyName
  else
    let sanitized := sanitize v
    if 100 < sanitized.length then .error .tooLong
    else if suspicious_no_tag sanitized then .error .suspiciousName
    else .ok sanitized

/-! ## Helper lemmas -/

lemma tagShape_eq_false {s : Str} (h : '<' ∉ s) : tagShape s = false := by
  induction s with
  | nil => rfl
  | cons c rest ih =>
    have hc : ¬(c = '<') := fun hc => h (hc ▸ List.mem_cons_self c rest)
    have hr : '<' ∉ rest := fun hm => h (List.mem_cons_of_mem c hm)
    simp [tagShape, hc, ih hr]

lemma not_lt_mem_sanitize (v : Str) : '<' ∉ sanitize v := by
  intro hm
  have h := List.of_mem_filter hm
  simp [forbiddenChar] at h

lemma sanitize_ne_nil_strip {v : Str} (h : sanitize v ≠ []) : pyStrip v ≠ [] := by
  intro h0
  exact h (by simp [sanitize, h0])

/-! ## C9: the model-id allow-list -/

/-- C9: model-id validation returns an allow-listed identifier
unchanged and silently substitutes the default `gpt-3.5-turbo` for
anything else; it never fails. -/
theorem validate_gpt_model_spec (v : Str) :
    (v ∈ allowed_models → validate_gpt_model v = v)
    ∧ (v ∉ allowed_models → validate_gpt_model v = "gpt-3.5-turbo".toList) := by
  constructor <;> intro h <;> simp [validate_gpt_model, h]

/-- Witness for C9 at a listed and an unlisted identifier. -/
theorem validate_gpt_model_spec_witness :
    validate_gpt_model "gpt-4".toList = "gpt-4".toList
    ∧ validate_gpt_model "gpt-5".toList = "gpt-3.5-turbo".toList :=
  ⟨(validate_gpt_model_spec "gpt-4".toList).1 (by decide),
   (validate_gpt_model_spec "gpt-5".toList).2 (by decide)⟩

/-! ## C10: the tag-shape pattern is dead code -/

/-- C10: stripping `<` and `>` before the denylist check makes the
`<.*>` pattern unmatchable, so the validator equals the validator
without that pattern on every input. -/
theorem tag_pattern_redundant (v : Str) :
    validate_item_name v = validate_item_name_no_tag v := by
  have htag : tagShape (sanitize v) = false :=
    tagShape_eq_false (not_lt_mem_sanitize v)
  have hsusp : suspicious (sanitize v) = suspicious_no_tag (sanitize v) := by
    simp [suspicious, suspicious_no_tag, htag]
  simp only [validate_item_name, validate_item_name_no_tag, hsusp]

/-! ## C1: what the item-name validator accepts and rejects -/

instance {ε α : Type} [DecidableEq ε] [DecidableEq α] :
    DecidableEq (Except ε α) := fun
  | .ok a, .ok b =>
    if h : a = b then .isTrue (by rw [h]) else .isFalse (by simp [h])
  | .ok _, .error _ => .isFalse (by simp)
  | .error _, .ok _ => .isFalse (by simp)
  | .error e, .error f =>
    if h : e = f then .isTrue (by rw [h]) else .isFalse (by simp [h])

/-- Refutes C1 as stated: an input containing the forbidden character
`"` passes validation (the character is stripped, not rejected). -/
theorem validate_item_name_accepts_forbidden_chars :
    '"' ∈ "a\"b".toList
    ∧ validate_item_name "a\"b".toList = .ok "ab".toList := by
  decide

/-- C1 (amended): forbidden characters are stripped rather than
rejected; validation fails whenever the cleaned form matches a
denylisted pattern, and succeeds returning the cleaned string whenever
the cleaned form is non-empty, at most 100 characters and matches no
denylisted pattern. -/
theorem validate_item_name_spec (v : Str) :
    (suspicious (sanitize v) = true → ∀ s, validate_item_name v ≠ .ok s)
    ∧ (sanitize v ≠ [] → (sanitize v).length ≤ 100 →
        suspicious (sanitize v) = false →
        validate_item_name v = .ok (sanitize v)) := by
  constructor
  · intro hs s
    by_cases h1 : pyStrip v = []
    · simp [validate_item_name, h1]
    · by_cases h2 : 100 < (sanitize v).length <;>
        simp [validate_item_name, h1, h2, hs]
  · intro h0 h1 h2
    have hstrip : pyStrip v ≠ [] := sanitize_ne_nil_strip h0
    unfold validate_item_name
    simp [hstrip, Nat.not_lt.mpr h1, h2]

/-- Witness for C1 (amended): a clean name is accepted verbatim, and a
name whose cleaned form contains `script` is rejected. -/
theorem validate_item_name_spec_witness :
    validate_item_name "Margherita Pizza".toList = .ok "Margherita Pizza".toList
    ∧ validate_item_name "scr'ipt".toList ≠ .ok "script".toList :=
  ⟨(validate_item_name_spec "Margherita Pizza".toList).2
      (by decide) (by decide) (by decide),
   (validate_item_name_spec "scr'ipt".toList).1 (by decide) "script".toList⟩

/-! ## C2: the sliding-window rate limiter -/

/-- C2: with fewer than `limit` stored timestamps inside the trailing
window the call admits and appends the current time; with `limit` or
more it rejects and appends nothing (only aged-out entries are
dropped); and once the earliest stored timestamp has aged past the
window, a store of at most `limit` admitted entries admits again. -/
theorem check_rate_limit_spec (now window : ℚ) (limit : Nat) (store : List ℚ) :
    ((store.filter (fun t => now - t < window)).length < limit →
      check_rate_limit now limit window store
        = (true, store.filter (fun t => now - t < window) ++ [now]))
    ∧ (limit ≤ (store.filter (fun t => now - t < window)).length →
      check_rate_limit now limit window store
        = (false, store.filter (fun t => now - t < window)))
    ∧ (∀ t0 ∈ store, store.length ≤ limit → (∀ t ∈ store, t0 ≤ t) →
        window ≤ now - t0 →
      (check_rate_limit now limit window store).1 = true) := by
  refine ⟨?_, ?_, ?_⟩
  · intro h
    simp [check_rate_limit, Nat.not_le.mpr h]
  · intro h
    simp [check_rate_limit, h]
  · intro t0 ht0 hlen hmin hage
    have hdrop : (store.filter (fun t => now - t < window)).length < store.length := by
      refine List.length_filter_lt_length_iff_exists.mpr ⟨t0, ht0, ?_⟩
      simp only [decide_eq_true_eq]
      linarith
    have hlt : (store.filter (fun t => now - t < window)).length < limit :=
      Nat.lt_of_lt_of_le hdrop hlen
    simp [check_rate_limit, Nat.not_le.mpr hlt]

/-- Witness for C2: an empty store admits and records; a full
in-window store rejects and records nothing; after the earliest entry
ages out the same client is admitted again. -/
theorem check_rate_limit_spec_witness :
    check_rate_limit 100 10 60 [] = (true, [100])
    ∧ check_rate_limit 100 10 60 (List.replicate 10 90)
        = (false, List.replicate 10 90)
    ∧ (check_rate_limit 111 10 60 (List.replicate 10 50)).1 = true := by
  have e90 : (List.replicate 10 (90 : ℚ)).filter (fun t => 100 - t < 60)
      = List.replicate 10 (90 : ℚ) := by
    apply List.filter_eq_self.mpr
    intro t ht
    rw [List.eq_of_mem_replicate ht]
    norm_num
  refine ⟨?_, ?_, ?_⟩
  · have h := (check_rate_limit_spec 100 60 10 []).1 (by simp)
    simpa using h
  · have h := (check_rate_limit_spec 100 60 10 (List.replicate 10 90)).2.1
      (by rw [e90]; simp)
    rw [e90] at h
    exact h
  · exact (check_rate_limit_spec 111 60 10 (List.replicate 10 50)).2.2 50
      (by simp) (by simp)
      (fun t ht => by rw [List.eq_of_mem_replicate ht])
      (by norm_num)

/-! ## Bounds lemmas for the repairer -/

lemma trunc_length_le {cap keep : Nat} (h : keep + 3 ≤ cap) (s : Str) :
    (trunc cap keep s).length ≤ cap := by
  have h3 : ("...".toList).length = 3 := rfl
  unfold trunc
  split
  · simp only [List.length_append, List.length_take, h3]
    omega
  · omega

lemma trunc_ne_nil {cap keep : Nat} {s : Str} (h : s ≠ []) :
    trunc cap keep s ≠ [] := by
  unfold trunc
  split
  · simp
  · exact h

lemma structured_clean_ok_bounds {p : JValue} {pair : Str × Str}
    (h : structured_clean p = .ok pair) :
    pair.1.length ≤ 150 ∧ pair.2.length ≤ 100 := by
  unfold structured_clean at h
  repeat' split at h
  all_goals try exact Except.noConfusion h
  injection h with h2
  exact h2 ▸ ⟨trunc_length_le (by norm_num) _, trunc_length_le (by norm_num) _⟩

lemma fallback_parse_bounds (t : Str) :
    (fallback_parse t).1 ≠ []
    ∧ (fallback_parse t).1.length ≤ 150
    ∧ (fallback_parse t).2 ≠ [] := by
  unfold fallback_parse
  refine ⟨?_, ?_, ?_⟩
  · cases hl : ((t.splitOn '\n').map pyStrip).filter (fun l => !l.isEmpty) with
    | nil => decide
    | cons d rest =>
      have hd : d ∈ ((t.splitOn '\n').map pyStrip).filter (fun l => !l.isEmpty) := by
        rw [hl]
        exact List.mem_cons_self d rest
      have hne : d ≠ [] := by simpa using List.of_mem_filter hd
      exact trunc_ne_nil hne
  · cases hl : ((t.splitOn '\n').map pyStrip).filter (fun l => !l.isEmpty) with
    | nil => decide
    | cons d rest => exact trunc_length_le (by norm_num) d
  · dsimp only
    split
    · decide
    · simp_all [List.isEmpty_iff]

lemma validate_ai_response_ok_desc_le {text : Str} {pair : Str × Str}
    (h : validate_ai_response text = .ok pair) : pair.1.length ≤ 150 := by
  have hfb := fallback_parse_bounds text
  unfold validate_ai_response at h
  cases ht : try_body text with
  | ok p =>
    rw [ht] at h
    injection h with h2
    subst h2
    refine (?_ : p.1.length ≤ 150)
    unfold try_body at ht
    cases hj : jsonLoads (pyStrip text) with
    | none => rw [hj] at ht; exact Except.noConfusion ht
    | some parsed => rw [hj] at ht; exact (structured_clean_ok_bounds ht).1
  | error e =>
    cases e with
    | valueError =>
      rw [ht] at h
      injection h with h2
      exact h2 ▸ hfb.2.1
    | attributeError => rw [ht] at h; exact Except.noConfusion h

/-! ## C3: the repairer is not total -/

/-- Refutes C3 as stated: on input `[1]` the text parses as JSON, the
decoded value is a list, `parsed.get` raises `AttributeError`, and the
`except (json.JSONDecodeError, ValueError)` handler does not catch it —
the repairer does not terminate normally. -/
theorem validate_ai_response_raises_on_non_object :
    validate_ai_response "[1]".toList = .error .attributeError := by
  rfl

/-- C3 (amended): the repairer either raises `AttributeError` (the
decoded JSON is not an object, or a truthy field is not a string) or
returns a pair whose description is at most 150 characters; the
structured path also caps the upsell at 100 characters, and the
heuristic path also returns non-empty description and upsell — but the
heuristic upsell is not length-capped, and a structured field that
strips to whitespace comes back empty. -/
theorem validate_ai_response_partial_safety (text : Str) :
    (∀ pair, validate_ai_response text = .ok pair → pair.1.length ≤ 150)
    ∧ (∀ pair, try_body text = .ok pair →
        pair.1.length ≤ 150 ∧ pair.2.length ≤ 100)
    ∧ (fallback_parse text).1 ≠ []
    ∧ (fallback_parse text).1.length ≤ 150
    ∧ (fallback_parse text).2 ≠ [] := by
  have hfb := fallback_parse_bounds text
  have hstruct : ∀ pair, try_body text = .ok pair →
      pair.1.length ≤ 150 ∧ pair.2.length ≤ 100 := by
    intro pair h
    unfold try_body at h
    cases hj : jsonLoads (pyStrip text) with
    | none => rw [hj] at h; exact Except.noConfusion h
    | some parsed => rw [hj] at h; exact structured_clean_ok_bounds h
  exact ⟨fun _ h => validate_ai_response_ok_desc_le h, hstruct,
    hfb.1, hfb.2.1, hfb.2.2⟩

/-- Witness for C3 (amended): the heuristic path on plain text and the
structured path on well-formed JSON, with the bounds instantiated. -/
theorem validate_ai_response_partial_safety_witness :
    validate_ai_response "hello".toList
      = .ok ("hello".toList, "Pair it with your favorite beverage!".toList)
    ∧ "hello".toList.length ≤ 150
    ∧ try_body "\x7b\"description\": \"Nice\", \"upsell_suggestion\": \"Tea\"\x7d".toList
      = .ok ("Nice".toList, "Tea".toList)
    ∧ "Nice".toList.length ≤ 150 ∧ "Tea".toList.length ≤ 100 := by
  have h1 : validate_ai_response "hello".toList
      = .ok ("hello".toList, "Pair it with your favorite beverage!".toList) := by rfl
  have h2 : try_body "\x7b\"description\": \"Nice\", \"upsell_suggestion\": \"Tea\"\x7d".toList
      = .ok ("Nice".toList, "Tea".toList) := by rfl
  exact ⟨h1,
    (validate_ai_response_partial_safety "hello".toList).1 _ h1,
    h2,
    ((validate_ai_response_partial_safety _).2.1 _ h2).1,
    ((validate_ai_response_partial_safety _).2.1 _ h2).2⟩

/-! ## C7: the 200-character truncation -/

/-- C7: a 200-character description arriving on the structured path
(with a truthy upsell field) is returned as exactly 150 characters —
the first 147 input characters followed by the 3-character `...`. -/
theorem structured_truncation_at_200 (d u : Str)
    (h200 : d.length = 200) (hds : pyStrip d = d) (hu : u ≠ []) :
    structured_clean (JValue.obj [(descKey, .str d), (upsKey, .str u)])
      = .ok (d.take 147 ++ "...".toList, trunc 100 97 (pyStrip u))
    ∧ (d.take 147 ++ "...".toList).length = 150 := by
  have hdget : dictGet [(descKey, .str d), (upsKey, .str u)] descKey
      = some (.str d) := rfl
  have huget : dictGet [(descKey, .str d), (upsKey, .str u)] upsKey
      = some (.str u) := rfl
  constructor
  · unfold structured_clean
    dsimp only
    rw [hdget, huget]
    have hdne : d ≠ [] := fun h => absurd (h ▸ h200) (by decide)
    have h1 : truthyOpt (some (JValue.str d)) = true := by
      simp [truthyOpt, truthy, List.isEmpty_iff, hdne]
    have h2 : truthyOpt (some (JValue.str u)) = true := by
      simp [truthyOpt, truthy, List.isEmpty_iff, hu]
    rw [h1, h2]
    simp [hds, trunc, h200]
  · simp [List.length_take, h200]

set_option maxRecDepth 4000 in
/-- Witness for C7: 200 copies of `a` and the upsell `tea`. -/
theorem structured_truncation_at_200_witness :
    structured_clean (JValue.obj
        [(descKey, .str (List.replicate 200 'a')), (upsKey, .str "tea".toList)])
      = .ok ((List.replicate 200 'a').take 147 ++ "...".toList,
             trunc 100 97 (pyStrip "tea".toList))
    ∧ ((List.replicate 200 'a').take 147 ++ "...".toList).length = 150 :=
  structured_truncation_at_200 (List.replicate 200 'a') "tea".toList
    (by simp) (by decide) (by decide)

/-! ## C6: the heuristic classifier -/

/-- Keyword test of one classifier branch: some keyword of `ws` occurs
in the lower-cased item name. -/
def sim_match (ws : List Str) (name : Str) : Bool :=
  ws.any (fun w => infixOf w (pyLower name))

def italian_words : List Str := ["pizza".toList, "pasta".toList]

def burger_words : List Str := ["burger".toList, "sandwich".toList]

def indian_words : List Str := ["curry".toList, "biryani".toList, "tikka".toList]

def sushi_words : List Str := ["sushi".toList, "roll".toList]

def salad_words : List Str := ["salad".toList, "bowl".toList]

def dessert_words : List Str := ["dessert".toList, "cake".toList, "ice cream".toList]

def drink_words : List Str := ["drink".toList, "juice".toList, "smoothie".toList]

/-- C6: the classifier is a total deterministic function of the item
name; the branch order Italian, burger, Indian, sushi, salad, dessert,
drink, default is respected (a pizza/pasta match wins outright, each
later branch fires only when all earlier ones fail, e.g. `pizza bowl`
takes the Italian branch); and every description starts with the
original, not lower-cased, item name verbatim. -/
theorem get_simulate_response_spec :
    (∀ n₁ n₂ : Str, n₁ = n₂ → get_simulate_response n₁ = get_simulate_response n₂)
    ∧ (∀ name, sim_match italian_words name = true →
        get_simulate_response name
          = (name ++ " — freshly baked with premium ingredients, aromatic herbs, and authentic Italian flavors.".toList,
             "Pair it with a refreshing Italian Soda!".toList))
    ∧ (∀ name, sim_match italian_words name = false →
        sim_match burger_words name = true →
        get_simulate_response name
          = (name ++ " — juicy, perfectly grilled with fresh vegetables and special sauce.".toList,
             "Add crispy French Fries and a cold drink!".toList))
    ∧ (∀ name, sim_match italian_words name = false →
        sim_match burger_words name = false →
        sim_match indian_words name = true →
        get_simulate_response name
          = (name ++ " — rich, aromatic spices with tender meat and authentic Indian flavors.".toList,
             "Pair it with fluffy Naan bread and Mango Lassi!".toList))
    ∧ (∀ name, sim_match italian_words name = false →
        sim_match burger_words name = false →
        sim_match indian_words name = false →
        sim_match sushi_words name = true →
        get_simulate_response name
          = (name ++ " — fresh, premium fish with perfectly seasoned rice and crisp vegetables.".toList,
             "Add miso soup and green tea!".toList))
    ∧ (∀ name, sim_match italian_words name = false →
        sim_match burger_words name = false →
        sim_match indian_words name = false →
        sim_match sushi_words name = false →
        sim_match salad_words name = true →
        get_simulate_response name
          = (name ++ " — fresh, crisp vegetables with healthy grains and light dressing.".toList,
             "Add a protein boost with grilled chicken!".toList))
    ∧ (∀ name, sim_match italian_words name = false →
        sim_match burger_words name = false →
        sim_match indian_words name = false →
        sim_match sushi_words name = false →
        sim_match salad_words name = false →
        sim_match dessert_words name = true →
        get_simulate_response name
          = (name ++ " — sweet, indulgent treat made with premium ingredients.".toList,
             "Pair it with hot coffee or tea!".toList))
    ∧ (∀ name, sim_match italian_words name = false →
        sim_match burger_words name = false →
        sim_match indian_words name = false →
        sim_match sushi_words name = false →
        sim_match salad_words name = false →
        sim_match dessert_words name = false →
        sim_match drink_words name = true →
        get_simulate_response name
          = (name ++ " — refreshing, natural flavors with no artificial additives.".toList,
             "Add a light snack or dessert!".toList))
    ∧ (∀ name, sim_match italian_words name = false →
        sim_match burger_words name = false →
        sim_match indian_words name = false →
        sim_match sushi_words name = false →
        sim_match salad_words name = false →
        sim_match dessert_words name = false →
        sim_match drink_words name = false →
        get_simulate_response name
          = (name ++ " — delicious, freshly prepared with quality ingredients and authentic flavors.".toList,
             "Pair it with your favorite beverage!".toList))
    ∧ get_simulate_response "pizza bowl".toList
        = ("pizza bowl".toList ++ " — freshly baked with premium ingredients, aromatic herbs, and authentic Italian flavors.".toList,
           "Pair it with a refreshing Italian Soda!".toList)
    ∧ (∀ name, name <+: (get_simulate_response name).1) := by
  refine ⟨fun _ _ h => h ▸ rfl, ?_, ?_, ?_, ?_, ?_, ?_, ?_, ?_, ?_, ?_⟩
  · intro name h1
    simp_all [get_simulate_response, sim_match, italian_words]
  · intro name h1 h2
    simp_all [get_simulate_response, sim_match, italian_words, burger_words]
  · intro name h1 h2 h3
    simp_all [get_simulate_response, sim_match, italian_words, burger_words,
      indian_words]
  · intro name h1 h2 h3 h4
    simp_all [get_simulate_response, sim_match, italian_words, burger_words,
      indian_words, sushi_words]
  · intro name h1 h2 h3 h4 h5
    simp_all [get_simulate_response, sim_match, italian_words, burger_words,
      indian_words, sushi_words, salad_words]
  · intro name h1 h2 h3 h4 h5 h6
    simp_all [get_simulate_response, sim_match, italian_words, burger_words,
      indian_words, sushi_words, salad_words, dessert_words]
  · intro name h1 h2 h3 h4 h5 h6 h7
    simp_all [get_simulate_response, sim_match, italian_words, burger_words,
      indian_words, sushi_words, salad_words, dessert_words, drink_words]
  · intro name h1 h2 h3 h4 h5 h6 h7
    simp_all [get_simulate_response, sim_match, italian_words, burger_words,
      indian_words, sushi_words, salad_words, dessert_words, drink_words]
  · rfl
  · intro name
    unfold get_simulate_response
    dsimp only
    split_ifs <;> exact ⟨_, rfl⟩

/-- Witness for C6: the trivial determinism instance and the Italian
branch at `Margherita Pizza`. -/
theorem get_simulate_response_spec_witness :
    get_simulate_response "Tea".toList = get_simulate_response "Tea".toList
    ∧ get_simulate_response "Margherita Pizza".toList
        = ("Margherita Pizza".toList ++ " — freshly baked with premium ingredients, aromatic herbs, and authentic Italian flavors.".toList,
           "Pair it with a refreshing Italian Soda!".toList) :=
  ⟨get_simulate_response_spec.1 "Tea".toList "Tea".toList rfl,
   get_simulate_response_spec.2.1 "Margherita Pizza".toList (by decide)⟩

/-! ## Pipeline helper lemmas -/

lemma validate_item_name_ok {v name : Str}
    (h : validate_item_name v = .ok name) :
    name = sanitize v ∧ name.length ≤ 100 := by
  by_cases h1 : pyStrip v = []
  · simp [validate_item_name, h1] at h
  · by_cases h2 : 100 < (sanitize v).length
    · simp [validate_item_name, h1, h2] at h
    · by_cases h3 : suspicious (sanitize v) = true
      · simp [validate_item_name, h1, h2, h3] at h
      · simp [validate_item_name, h1, h2, h3] at h
        subst h
        exact ⟨rfl, by omega⟩

lemma get_simulate_response_bounds {name : Str} (h : name.length ≤ 100) :
    (get_simulate_response name).1.length ≤ 189
    ∧ (get_simulate_response name).2.length ≤ 100 := by
  have hcat : ∀ sfx : Str, sfx.length ≤ 89 → (name ++ sfx).length ≤ 189 := by
    intro sfx hsfx
    rw [List.length_append]
    omega
  unfold get_simulate_response
  dsimp only
  split_ifs <;> refine ⟨hcat _ ?_, ?_⟩ <;> dsimp only <;> decide

lemma validate_gpt_model_ne (g : Str) :
    validate_gpt_model g ≠ "simulate".toList
    ∧ validate_gpt_model g ≠ "fallback".toList := by
  unfold validate_gpt_model
  split
  · rename_i hmem
    rcases (by simpa [allowed_models] using hmem : _ ∨ _ ∨ _) with h | h | h <;>
      subst h <;> exact ⟨by decide, by decide⟩
  · exact ⟨by decide, by decide⟩

/-! ## C5: model failure is absorbed into the fallback -/

/-- C5: when a validated, admitted request reaches the model branch and
the model call fails, the endpoint still answers successfully, tagged
`fallback`, with exactly the heuristic classifier's output for the
validated item name. -/
theorem model_failure_absorbed_into_fallback
    (item_raw gpt_raw name : Str) (now : ℚ) (store : List ℚ)
    (hv : validate_item_name item_raw = .ok name)
    (hr : (check_rate_limit now 10 60 store).1 = true) :
    generate_item_details item_raw false gpt_raw true (.error ()) now store
      = (.ok ⟨(get_simulate_response name).1, (get_simulate_response name).2,
              "fallback".toList⟩,
         (check_rate_limit now 10 60 store).2) := by
  unfold generate_item_details
  rw [hv]
  simp [hr]

/-- Witness for C5 at `Pizza` with an empty rate store. -/
theorem model_failure_absorbed_into_fallback_witness :
    generate_item_details "Pizza".toList false "gpt-4".toList true
        (.error ()) 0 []
      = (.ok ⟨(get_simulate_response "Pizza".toList).1,
              (get_simulate_response "Pizza".toList).2,
              "fallback".toList⟩, [0]) :=
  model_failure_absorbed_into_fallback "Pizza".toList "gpt-4".toList
    "Pizza".toList 0 [] (by decide) (by decide)

/-! ## C8: validation failure has no side effects -/

/-- C8: a request whose item name fails validation terminates with a
client error, leaves the rate-limit store untouched, and its outcome
does not depend on the model call at all. -/
theorem validation_failure_no_side_effects
    (item_raw gpt_raw : Str) (simulate cfg : Bool)
    (m₁ m₂ : Except Unit Str) (now : ℚ) (store : List ℚ) (e : ValidationError)
    (hv : validate_item_name item_raw = .error e) :
    generate_item_details item_raw simulate gpt_raw cfg m₁ now store
      = (.validationError e, store)
    ∧ generate_item_details item_raw simulate gpt_raw cfg m₁ now store
      = generate_item_details item_raw simulate gpt_raw cfg m₂ now store := by
  unfold generate_item_details
  rw [hv]
  exact ⟨rfl, rfl⟩

/-- Witness for C8 at the spec's scenario-B payload. -/
theorem validation_failure_no_side_effects_witness :
    generate_item_details "<script>alert(1)</script>".toList false
        "gpt-4".toList true (.ok "x".toList) 0 [5]
      = (.validationError .suspiciousName, [5])
    ∧ generate_item_details "<script>alert(1)</script>".toList false
        "gpt-4".toList true (.ok "x".toList) 0 [5]
      = generate_item_details "<script>alert(1)</script>".toList false
          "gpt-4".toList true (.error ()) 0 [5] :=
  validation_failure_no_side_effects "<script>alert(1)</script>".toList
    "gpt-4".toList false true (.ok "x".toList) (.error ()) 0 [5]
    .suspiciousName (by decide)

/-! ## C4: response-shape invariants -/

set_option maxRecDepth 8000 in
/-- Refutes C4 as stated: a valid 100-character item name on the
simulate path yields a 178-character description, beyond the claimed
150-character cap. -/
theorem generate_item_details_description_over_150 :
    generate_item_details (List.replicate 100 'x') true "gpt-4".toList true
        (.error ()) 0 []
      = (.ok ⟨List.replicate 100 'x'
            ++ " — delicious, freshly prepared with quality ingredients and authentic flavors.".toList,
            "Pair it with your favorite beverage!".toList,
            "simulate".toList⟩, [0])
    ∧ 150 < (List.replicate 100 'x'
        ++ " — delicious, freshly prepared with quality ingredients and authentic flavors.".toList).length := by
  constructor
  · rfl
  · decide

/-- C4 (amended): every successful response's `model_used` is the
validated model id, `simulate`, or `fallback`; responses tagged with
the model id have description at most 150 characters; responses tagged
`simulate` or `fallback` have upsell at most 100 characters and
description at most 189 characters (item name plus longest template),
which can exceed 150. -/
theorem generate_item_details_response_invariants
    (item_raw gpt_raw : Str) (simulate cfg : Bool) (m : Except Unit Str)
    (now : ℚ) (store : List ℚ) (resp : MenuItemResponse) (store' : List ℚ)
    (h : generate_item_details item_raw simulate gpt_raw cfg m now store
          = (.ok resp, store')) :
    (resp.model_used = validate_gpt_model gpt_raw
      ∨ resp.model_used = "simulate".toList
      ∨ resp.model_used = "fallback".toList)
    ∧ (resp.model_used = validate_gpt_model gpt_raw →
        resp.description.length ≤ 150)
    ∧ ((resp.model_used = "simulate".toList
        ∨ resp.model_used = "fallback".toList) →
        resp.description.length ≤ 189
        ∧ resp.upsell_suggestion.length ≤ 100) := by
  unfold generate_item_details at h
  cases hve : validate_item_name item_raw with
  | error e => rw [hve] at h; simp at h
  | ok name =>
    rw [hve] at h
    have hname := (validate_item_name_ok hve).2
    have hsim := get_simulate_response_bounds hname
    have hne := validate_gpt_model_ne gpt_raw
    by_cases hr : (check_rate_limit now 10 60 store).1 = true
    · by_cases hs : (simulate || !cfg) = true
      · simp [hr, hs] at h
        obtain ⟨hresp, -⟩ := h
        subst hresp
        exact ⟨Or.inr (Or.inl rfl),
          fun hmu => absurd hmu.symm hne.1,
          fun _ => hsim⟩
      · cases m with
        | error u =>
          simp [hr, hs] at h
          obtain ⟨hresp, -⟩ := h
          subst hresp
          exact ⟨Or.inr (Or.inr rfl),
            fun hmu => absurd hmu.symm hne.2,
            fun _ => hsim⟩
        | ok raw =>
          cases hrep : validate_ai_response (pyStrip raw) with
          | ok pair =>
            simp [hr, hs, hrep] at h
            obtain ⟨hresp, -⟩ := h
            subst hresp
            refine ⟨Or.inl rfl,
              fun _ => validate_ai_response_ok_desc_le hrep,
              fun hmu => ?_⟩
            rcases hmu with hmu | hmu
            · exact absurd hmu hne.1
            · exact absurd hmu hne.2
          | error ex =>
            simp [hr, hs, hrep] at h
            obtain ⟨hresp, -⟩ := h
            subst hresp
            exact ⟨Or.inr (Or.inr rfl),
              fun hmu => absurd hmu.symm hne.2,
              fun _ => hsim⟩
    · simp [hr] at h

/-- Witness for C4 (amended) on the model path: a structured model
reply tagged with the validated model id. -/
theorem generate_item_details_response_invariants_witness :
    ("gpt-4".toList = validate_gpt_model "gpt-4".toList
      ∨ "gpt-4".toList = "simulate".toList
      ∨ "gpt-4".toList = "fallback".toList)
    ∧ ("gpt-4".toList = validate_gpt_model "gpt-4".toList →
        "Nice".toList.length ≤ 150)
    ∧ (("gpt-4".toList = "simulate".toList
        ∨ "gpt-4".toList = "fallback".toList) →
        "Nice".toList.length ≤ 189 ∧ "Tea".toList.length ≤ 100) :=
  generate_item_details_response_invariants "Pizza".toList "gpt-4".toList
    false true
    (.ok "\x7b\"description\": \"Nice\", \"upsell_suggestion\": \"Tea\"\x7d".toList)
    0 [] ⟨"Nice".toList, "Tea".toList, "gpt-4".toList⟩ [0] (by rfl)
